import Mathlib

/-!
# Verification of the chat_bot retrieval-augmented backend

A shallow embedding, in Lean 4, of the decision logic of the `chat_bot`
repository (FastAPI backend under `backend/app/`): the text chunker and
embedding normalisation of `vector_store_service.py`, the answer gate and
language normalisation of `llm_service.py`, the HTTP endpoints of
`api/v1/endpoints/chat.py`, and the WebSocket handlers and connection
manager of `main.py`.

External collaborators (the Bedrock embedding model, the S3Vectors store,
the OpenAI chat-completion API, speech transcription/synthesis, the wall
clock and the random generator) are modelled as explicit oracle parameters:
each pure Lean function below mirrors one Python function of the source,
with the oracle standing for the network call it makes.  Machine floats
carried opaquely by the source (embedding components, timestamps) are
modelled as rationals; none of the verified properties computes on them.
-/

set_option maxRecDepth 8192

deriving instance DecidableEq for Except

namespace ChatBot

/-! ## Python string primitives

Each is defined on the string's character list (`String.data`), which is
what the Python operations see: `pyLower` is `str.lower()` (per-character
lowering), `pyStrip` is `str.strip()` (drop surrounding whitespace),
`pyWords` is `str.split()` with no separator (split on whitespace runs,
dropping empty pieces), `pyTake` is the slice `s[:n]`, and `pyJoin sep`
is `sep.join(...)`. -/

def pyLower (s : String) : String := ⟨s.data.map Char.toLower⟩

/-- Drop leading and trailing whitespace of a character list. -/
def stripChars (l : List Char) : List Char :=
  ((l.dropWhile Char.isWhitespace).reverse.dropWhile Char.isWhitespace).reverse

def pyStrip (s : String) : String := ⟨stripChars s.data⟩

def pyWords (s : String) : List String :=
  ((s.data.splitOnP Char.isWhitespace).map String.mk).filter (fun w => w ≠ "")

def pyTake (s : String) (n : Nat) : String := ⟨s.data.take n⟩

def pyJoin (sep : String) : List String → String
  | [] => ""
  | [w] => w
  | w :: ws => w ++ sep ++ pyJoin sep ws

/-! ## LLM service (`backend/app/services/llm_service.py`)

`LLMOracles.chatCompletion` models one `chat.completions.create` request:
it receives the system prompt, the user message, `max_tokens` and the
temperature, and returns the reply content or fails (`.error`) the way the
SDK raises.  `hour` and `pick` model `datetime.now().hour` and the choice
`random.choice` makes. -/

structure LLMOracles where
  chatCompletion : String → String → Nat → ℚ → Except String String
  hour : Nat
  pick : Nat

/-- The system prompt `generate_response` builds around the retrieved
context. -/
def answer_system_prompt (context : String) : String :=
  "You are a helpful assistant. ONLY use the provided context to answer the user\x27s question. If the context does not contain relevant information to answer the question, respond with exactly: \x27No context found for your query.\x27 Do not provide general information or suggestions.\n\nContext:\n"
    ++ context

/-- `LLMService.generate_response`: one completion call with the context
embedded in the system prompt, `max_tokens=500`, `temperature=0.7`;
failures propagate to the caller. -/
def generate_response (o : LLMOracles) (query context : String) : Except String String :=
  o.chatCompletion (answer_system_prompt context) query 500 (7/10)

/-- The fixed system prompt of `_detect_language`. -/
def detection_system_prompt : String :=
  "You are a language detection expert. Analyze the following text and respond with ONLY the language name in English (e.g., \x27English\x27, \x27Spanish\x27, \x27French\x27, \x27German\x27, \x27Chinese\x27, \x27Japanese\x27, \x27Korean\x27, \x27Arabic\x27, \x27Hindi\x27, \x27Russian\x27, etc.). Do not include any other text or explanations."

/-- `LLMService._detect_language`: the completion call sees at most the
first 500 characters of the text (`text[:500]`), `max_tokens=50`,
`temperature=0.1`; the reply is stripped; any failure is caught and the
sentinel `"Unknown"` returned instead. -/
def detect_language (o : LLMOracles) (text : String) : String :=
  match o.chatCompletion detection_system_prompt (pyTake text 500) 50 (1/10) with
  | .ok content => pyStrip content
  | .error _ => "Unknown"

/-- The system prompt `translate_content` builds, depending on whether a
source language is supplied. -/
def translation_system_prompt (source_language : Option String) (target_language : String) :
    String :=
  match source_language with
  | some src =>
      "You are a professional translator. Translate the following text from " ++ src
        ++ " to " ++ target_language
        ++ ". Maintain the original meaning, tone, and formatting. Return only the translated text without any explanations or additional text."
  | none =>
      "You are a professional translator. Detect the language of the following text and translate it to "
        ++ target_language
        ++ ". Maintain the original meaning, tone, and formatting. Return only the translated text without any explanations or additional text."

/-- The dictionary `translate_content` returns (the numeric
`translation_confidence` constant is not modelled; no caller reads it). -/
structure TranslationResult where
  translated_content : String
  source_language : String
  target_language : String
deriving DecidableEq, Repr

/-- `LLMService.translate_content`: one completion call with
`max_tokens=2000`, `temperature=0.3`; when no source language is given the
source language of the result is detected from the content afterwards;
failures propagate to the caller. -/
def translate_content (o : LLMOracles) (content target_language : String)
    (source_language : Option String) : Except String TranslationResult :=
  match o.chatCompletion (translation_system_prompt source_language target_language)
      content 2000 (3/10) with
  | .error e => .error e
  | .ok translated_text =>
      .ok { translated_content := translated_text
            source_language :=
              match source_language with
              | some src => src
              | none => detect_language o content
            target_language := target_language }

/-- The fixed list `pure_greetings` of
`LLMService.process_query_with_context`. -/
def pure_greetings : List String :=
  ["hello", "hi", "hey", "greetings",
   "good morning", "good afternoon", "good evening",
   "how are you", "how do you do"]

/-- The greeting test of `process_query_with_context`: the query is
lowercased then stripped, and compared for exact equality against each
pure greeting, bare or with a single trailing `"!"`. -/
def is_pure_greeting (query : String) : Bool :=
  let query_lower := pyStrip (pyLower query)
  pure_greetings.any (fun greeting =>
    query_lower == greeting || query_lower == greeting ++ "!")

/-- The time-of-day salutation of `_generate_greeting_response`. -/
def time_greeting (current_hour : Nat) : String :=
  if current_hour < 12 then "Good morning"
  else if current_hour < 17 then "Good afternoon"
  else "Good evening"

/-- The greeting templates of `_generate_greeting_response`. -/
def greeting_templates (tg : String) : List String :=
  [tg ++ "! How can I help you today?",
   "Hello! " ++ tg ++ "! I\x27m here to assist you. What would you like to know?",
   "Hi there! " ++ tg ++ "! How can I be of service today?",
   "Greetings! " ++ tg ++ "! What can I help you with?",
   "Hello! " ++ tg ++ "! I\x27m ready to help. What do you need assistance with?"]

/-- `LLMService._generate_greeting_response`: a template picked by
`random.choice` (modelled by the `pick` oracle, reduced modulo the
template count) around the wall-clock salutation. -/
def generate_greeting_response (o : LLMOracles) (_query : String) : String :=
  let tg := time_greeting o.hour
  (greeting_templates tg).getD (o.pick % (greeting_templates tg).length) ""

/-- `LLMService._generate_no_context_response`: the fixed literal. -/
def no_context_response : String := "No context found for your query."

/-- The outcome of `process_query_with_context`: the returned string (or
the exception it lets propagate), plus a ghost flag recording whether
`generate_response` — the answer completion call — was reached. -/
structure GateOut where
  result : Except String String
  llmCalled : Bool
deriving DecidableEq, Repr

/-- `LLMService.process_query_with_context`, the answer gate: a pure
greeting short-circuits to a templated greeting; with no retrieved chunks,
or none whose stripped length exceeds 20, the fixed no-context literal is
returned; otherwise the meaningful chunks are joined with blank lines as
the LLM context, and the generated answer is translated to English when
the detected query language is neither "english" nor "en" (a failed
translation falls back to the untranslated answer). -/
def process_query_with_context (o : LLMOracles) (query : String)
    (relevant_chunks : List String) : GateOut :=
  if is_pure_greeting query then
    { result := .ok (generate_greeting_response o query), llmCalled := false }
  else if relevant_chunks.isEmpty then
    { result := .ok no_context_response, llmCalled := false }
  else
    let meaningful_chunks := relevant_chunks.filter (fun chunk => (pyStrip chunk).length > 20)
    if meaningful_chunks.isEmpty then
      { result := .ok no_context_response, llmCalled := false }
    else
      let context := pyJoin "\n\n" meaningful_chunks
      match generate_response o query context with
      | .error e => { result := .error e, llmCalled := true }
      | .ok ai_response =>
          let query_language := detect_language o query
          if pyLower query_language ≠ "english" ∧ pyLower query_language ≠ "en" then
            match translate_content o ai_response "English" (some query_language) with
            | .ok translation_result =>
                { result := .ok translation_result.translated_content, llmCalled := true }
            | .error _ => { result := .ok ai_response, llmCalled := true }
          else
            { result := .ok ai_response, llmCalled := true }

/-! ## Vector store service (`backend/app/services/vector_store_service.py`) -/

/-- The loop state of `VectorStoreService.chunk_text`: the flushed chunks,
the accumulating `current_chunk`, and `current_size`.  The source stores
each flushed chunk already joined by `" ".join`; here chunks are kept as
their word lists and joined once at the end, which is the same strings
(`chunk_text` below applies `pyJoin " "` to every chunk). -/
structure ChunkState where
  chunks : List (List String)
  cur : List String
  size : Nat
deriving Repr

/-- One iteration of the `for word in words` loop of `chunk_text`:
if `current_size + len(word) + 1 > chunk_size and current_chunk`, flush
`current_chunk` and restart from `word` with `current_size = len(word)`;
otherwise append `word` and add `len(word) + 1` to `current_size`. -/
def chunkStep (chunk_size : Nat) (s : ChunkState) (word : String) : ChunkState :=
  if s.size + word.length + 1 > chunk_size ∧ s.cur ≠ [] then
    { chunks := s.chunks ++ [s.cur], cur := [word], size := word.length }
  else
    { chunks := s.chunks, cur := s.cur ++ [word], size := s.size + word.length + 1 }

/-- `chunk_text`'s word-level result: fold the loop over the words, then
flush the trailing `current_chunk` if it is nonempty. -/
def chunkWords (words : List String) (chunk_size : Nat) : List (List String) :=
  let s := words.foldl (chunkStep chunk_size) ⟨[], [], 0⟩
  if s.cur ≠ [] then s.chunks ++ [s.cur] else s.chunks

/-- `VectorStoreService.chunk_text(text, chunk_size)`: split into words
with `text.split()` and regroup them, each produced chunk being the
`" ".join` of its words. -/
def chunk_text (text : String) (chunk_size : Nat) : List String :=
  (chunkWords (pyWords text) chunk_size).map (pyJoin " ")

/-- `settings.VECTOR_DIMENSION` (`backend/app/core/config.py`). -/
def VECTOR_DIMENSION : Nat := 512

/-- The truncate/zero-pad block inside `get_embeddings`: an upstream
vector longer than `dim` keeps its first `dim` components, a shorter one
is padded with `0.0` at the end. -/
def normalize_embedding (dim : Nat) (embedding : List ℚ) : List ℚ :=
  if embedding.length > dim then embedding.take dim
  else if embedding.length < dim then
    embedding ++ List.replicate (dim - embedding.length) 0
  else embedding

/-- `VectorStoreService.get_embeddings`: one Bedrock `invoke_model` call
per input text, in order.  `bedrockEmbed` models the call together with
the response parse: `.error` when the call raises or the response body has
no `"embedding"` key (the source raises `ValueError` there).  Any failure
aborts the whole batch — no partial list is returned.  `dim` is
`settings.VECTOR_DIMENSION`. -/
def get_embeddings (dim : Nat) (bedrockEmbed : String → Except String (List ℚ)) :
    List String → Except String (List (List ℚ))
  | [] => .ok []
  | text :: rest =>
      match bedrockEmbed text with
      | .error e => .error e
      | .ok embedding =>
          match get_embeddings dim bedrockEmbed rest with
          | .error e => .error e
          | .ok tail => .ok (normalize_embedding dim embedding :: tail)

/-- A metadata value of a stored vector: the source writes integers
(`organisation_id`, `project_id`, `chunk_id`) and strings (`chunk_text`,
`title`, ...). -/
inductive MetaVal
  | int (n : Int)
  | str (v : String)
deriving DecidableEq, Repr

/-- A vector's metadata mapping, as the JSON object it is. -/
abbrev Metadata := List (String × MetaVal)

/-- A vector stored in the S3Vectors index. -/
structure StoredVector where
  key : String
  data : List ℚ
  metadata : Metadata
deriving DecidableEq, Repr

/-- One `{"field": {"$eq": value}}` clause of a metadata filter. -/
structure EqCond where
  field : String
  value : MetaVal
deriving DecidableEq, Repr

/-- The `{"$and": [...]}` filter shape `query_vectors` sends. -/
structure QueryFilter where
  andConds : List EqCond
deriving DecidableEq, Repr

/-- The request `VectorStoreService.query_vectors` issues to
`s3vectors.query_vectors` (bucket and index names, fixed by config, are
not modelled). -/
structure QueryRequest where
  queryVector : List ℚ
  returnMetadata : Bool
  filter : QueryFilter
  topK : Nat

/-- The request built at `vector_store_service.py:123-132`: metadata is
returned, the filter is the `$and` of `organisation_id $eq` and
`project_id $eq`, and `topK` is the `limit` argument. -/
def query_vectors_request (query_vector : List ℚ) (organisation_id project_id : Int)
    (limit : Nat) : QueryRequest :=
  { queryVector := query_vector
    returnMetadata := true
    filter := { andConds := [⟨"organisation_id", .int organisation_id⟩,
                             ⟨"project_id", .int project_id⟩] }
    topK := limit }

/-- Whether a metadata mapping satisfies an `$and`-of-`$eq` filter: every
clause's field is present with exactly the clause's value. -/
def matchesFilter (f : QueryFilter) (m : Metadata) : Bool :=
  f.andConds.all (fun c => m.lookup c.field == some c.value)

/-- Modelled from the spec: the external S3Vectors store, absent from the
repository, evaluated on a query request — §4.3 of the spec requires it to
"filter server-side by exact match on both organisation_id and project_id
(logical AND)" and return "at most top_k results, ranked by similarity
descending".  `ranked` is the store's contents listed in descending
similarity to the request's query vector; the store keeps the matching
entries in that order and returns at most `topK` of them. -/
def storeQuery (ranked : List StoredVector) (req : QueryRequest) : List StoredVector :=
  (ranked.filter (fun v => matchesFilter req.filter v.metadata)).take req.topK

/-! ## HTTP endpoints (`backend/app/api/v1/endpoints/chat.py`) -/

/-- The request body of `POST /api/v1/message` (`ChatMessage` in the
source), with its declared defaults. -/
structure ChatMessage where
  message : String
  organisation_id : Int := 1
  project_id : Int := 1
  is_voice : Bool := false
deriving DecidableEq, Repr

/-- The response model `ChatResponse` of the source: `answer` and
`timestamp` are required (no default), the rest default. -/
structure ChatResponse where
  answer : String
  transcript : Option String := none
  audio_url : Option String := none
  is_voice : Bool := false
  timestamp : ℚ
deriving DecidableEq, Repr

/-- A value of a Python dict the endpoints build (`None` included). -/
inductive DictVal
  | str (s : String)
  | boolean (b : Bool)
  | num (q : ℚ)
  | pyNone
deriving DecidableEq, Repr

/-- A keyword-argument dict, as passed to `ChatResponse(**d)`. -/
abbrev PyDict := List (String × DictVal)

/-- Pydantic validation of `ChatResponse(**d)`: a required field
(`answer`, `timestamp`) missing from the dict raises a `ValidationError`;
optional fields take their defaults when absent or `None`; keys that are
no field of the model are ignored. -/
def ChatResponse.validate (d : PyDict) : Except String ChatResponse :=
  match d.lookup "answer" with
  | some (.str answer) =>
      match d.lookup "timestamp" with
      | some (.num timestamp) =>
          .ok { answer := answer
                transcript :=
                  match d.lookup "transcript" with
                  | some (.str t) => some t
                  | _ => none
                audio_url :=
                  match d.lookup "audio_url" with
                  | some (.str u) => some u
                  | _ => none
                is_voice :=
                  match d.lookup "is_voice" with
                  | some (.boolean b) => b
                  | _ => false
                timestamp := timestamp }
      | _ => .error "validation error: field required: timestamp"
  | _ => .error "validation error: field required: answer"

/-- What an endpoint call returns over HTTP: a validated success body, or
an `HTTPException` with its status code and detail. -/
inductive HttpResult
  | ok (body : ChatResponse)
  | httpError (status : Nat) (detail : String)
deriving DecidableEq, Repr

/-- One vector of an S3Vectors query response as the endpoints read it:
the `metadata` key may be absent (`None` here), and `chunk_text` may be
absent from the metadata — tolerant parsing, a vector without both
contributes no chunk. -/
structure RespVector where
  metadata : Option Metadata
deriving DecidableEq, Repr

/-- An S3Vectors query response as the endpoints read it: the `vectors`
key may be absent. -/
structure VectorQueryResponse where
  vectors : Option (List RespVector)
deriving DecidableEq, Repr

/-- The chunk extraction loop the three entry paths share: for each
vector, if `"metadata" in vector and "chunk_text" in vector["metadata"]`,
append the chunk text (the stored `chunk_text` values are the strings
written by `create_faq_vectors`/`create_product_vectors`). -/
def extract_chunks (resp : VectorQueryResponse) : List String :=
  match resp.vectors with
  | none => []
  | some vs =>
      vs.filterMap (fun v =>
        match v.metadata with
        | none => none
        | some m =>
            match m.lookup "chunk_text" with
            | some (.str s) => some s
            | _ => none)

/-- A ghost trace of the pipeline steps an entry path runs, recorded to
state which external stages a request reaches. -/
inductive PipelineEvent
  | embedCall (text : String)
  | queryCall (organisation_id project_id : Int) (limit : Nat)
  | gateCall (query : String)
deriving DecidableEq, Repr

/-- The oracles of a whole request: the LLM oracles, the Bedrock
embedding call, the S3Vectors query call (an arbitrary response or a
raised error), speech transcription and synthesis, and `time.time()`. -/
structure BackendOracles where
  llm : LLMOracles
  bedrockEmbed : String → Except String (List ℚ)
  queryVectors : List ℚ → Int → Int → Nat → Except String VectorQueryResponse
  transcribe : String → Except String String
  synthesize : String → Except String String
  now : ℚ

/-- The dict built at `chat.py:67-71` in `send_message` — its keys are
`"response"`, `"is_voice"` and `"timestamp"`. -/
def send_message_response_dict (ai_response : String) (is_voice : Bool) (timestamp : ℚ) :
    PyDict :=
  [("response", .str ai_response),
   ("is_voice", .boolean is_voice),
   ("timestamp", .num timestamp)]

/-- `POST /api/v1/message` (`send_message`): embed the message, query the
store scoped to the tenant pair with `limit=5`, extract chunks, run the
answer gate, then build the response dict and validate it as a
`ChatResponse`; any exception inside the `try` (upstream failure or the
`ChatResponse(**response)` validation) is caught and becomes
`HTTPException(500, "Failed to process message")`.  Returns the HTTP
result and the trace of pipeline steps reached. -/
def send_message (o : BackendOracles) (chat_message : ChatMessage) :
    HttpResult × List PipelineEvent :=
  match get_embeddings VECTOR_DIMENSION o.bedrockEmbed [chat_message.message] with
  | .error _ => (.httpError 500 "Failed to process message", [.embedCall chat_message.message])
  | .ok query_embeddings =>
      match query_embeddings.head? with
      | none => (.httpError 500 "Failed to process message", [.embedCall chat_message.message])
      | some query_vector =>
          match o.queryVectors query_vector chat_message.organisation_id
              chat_message.project_id 5 with
          | .error _ =>
              (.httpError 500 "Failed to process message",
               [.embedCall chat_message.message,
                .queryCall chat_message.organisation_id chat_message.project_id 5])
          | .ok vector_results =>
              let relevant_chunks := extract_chunks vector_results
              let events := [.embedCall chat_message.message,
                             .queryCall chat_message.organisation_id chat_message.project_id 5,
                             .gateCall chat_message.message]
              match (process_query_with_context o.llm chat_message.message
                  relevant_chunks).result with
              | .error _ => (.httpError 500 "Failed to process message", events)
              | .ok ai_response =>
                  match ChatResponse.validate
                      (send_message_response_dict ai_response chat_message.is_voice o.now) with
                  | .error _ => (.httpError 500 "Failed to process message", events)
                  | .ok body => (.ok body, events)

/-- `POST /api/v1/chat` (`chat`): multipart `text` XOR `audio`.  Python
truthiness: an absent or empty `text` is falsy, an absent `audio` is
falsy.  Both absent (or empty text and no audio) → 400 "Either text or
audio must be provided"; both present → 400 "Provide either text or audio,
not both".  The audio path transcribes first; an empty stripped text →
400 "No text content found".  Then the same embed → query → gate pipeline,
a response dict keyed `"answer"`, optional speech synthesis (its failure
tolerated), and validation; other exceptions → 500 "Failed to process chat
request". -/
def chat (o : BackendOracles) (text : Option String) (audio : Option String)
    (organisation_id project_id : Int) : HttpResult × List PipelineEvent :=
  if (text = none ∨ text = some "") ∧ audio = none then
    (.httpError 400 "Either text or audio must be provided", [])
  else if (text ≠ none ∧ text ≠ some "") ∧ audio ≠ none then
    (.httpError 400 "Provide either text or audio, not both", [])
  else
    let is_voice_input := audio.isSome
    let afterTranscribe : Except String (String × Option String) :=
      match audio with
      | some bytes =>
          match o.transcribe bytes with
          | .error e => .error e
          | .ok transcript => .ok (transcript, some transcript)
      | none => .ok (pyStrip (text.getD ""), none)
    match afterTranscribe with
    | .error _ => (.httpError 500 "Failed to process chat request", [])
    | .ok (user_text, transcript) =>
        if user_text = "" then (.httpError 400 "No text content found", [])
        else
          match get_embeddings VECTOR_DIMENSION o.bedrockEmbed [user_text] with
          | .error _ =>
              (.httpError 500 "Failed to process chat request", [.embedCall user_text])
          | .ok query_embeddings =>
              match query_embeddings.head? with
              | none =>
                  (.httpError 500 "Failed to process chat request", [.embedCall user_text])
              | some query_vector =>
                  match o.queryVectors query_vector organisation_id project_id 5 with
                  | .error _ =>
                      (.httpError 500 "Failed to process chat request",
                       [.embedCall user_text,
                        .queryCall organisation_id project_id 5])
                  | .ok vector_results =>
                      let relevant_chunks := extract_chunks vector_results
                      let events := [.embedCall user_text,
                                     .queryCall organisation_id project_id 5,
                                     .gateCall user_text]
                      match (process_query_with_context o.llm user_text
                          relevant_chunks).result with
                      | .error _ => (.httpError 500 "Failed to process chat request", events)
                      | .ok ai_response =>
                          let response_data : PyDict :=
                            [("answer", .str ai_response),
                             ("transcript",
                              match transcript with
                              | some t => .str t
                              | none => .pyNone),
                             ("is_voice", .boolean is_voice_input),
                             ("timestamp", .num o.now)]
                          let response_data :=
                            if is_voice_input then
                              match o.synthesize ai_response with
                              | .ok audio_url => response_data ++ [("audio_url", .str audio_url)]
                              | .error _ => response_data
                            else response_data
                          match ChatResponse.validate response_data with
                          | .error _ =>
                              (.httpError 500 "Failed to process chat request", events)
                          | .ok body => (.ok body, events)

/-! ## Realtime channel (`backend/app/main.py`) -/

/-- An inbound `user_message` frame as `handle_user_message` reads it,
with the `message.get(..., default)` defaults. -/
structure WsIncoming where
  text : Option String := none
  isVoice : Bool := false
  organisation_id : Int := 1
  project_id : Int := 1
deriving DecidableEq, Repr

/-- A server→client frame. -/
inductive WsFrame
  | typing (isTyping : Bool)
  | bot_response (text : String) (isVoice : Bool) (timestamp : ℚ)
  | pong
  | error (message : String)
deriving DecidableEq, Repr

/-- The fixed message `handle_user_message` sends when the query is empty
or whitespace-only. -/
def empty_message_error : String := "Empty message received"

/-- The fixed fallback `handle_user_message` answers with, instead of
calling the answer gate, when the retrieved chunk list is empty
(`main.py:248-251`). -/
def fallback_no_chunks_response : String :=
  "I don\x27t have enough information to answer your question. Please try rephrasing or ask about something else."

/-- `handle_user_message` (`main.py:202-276`): an empty stripped text is
answered with an error frame before anything runs; otherwise a typing
frame is sent, the message is embedded and the store queried, and the gate
runs only when chunks were extracted — with none, the fixed fallback text
is sent as the bot response.  Any exception is caught and an
`"Failed to process message"` error frame sent (after the frames already
sent).  Returns the frames sent, in order, and the pipeline trace. -/
def handle_user_message (o : BackendOracles) (message : WsIncoming) :
    List WsFrame × List PipelineEvent :=
  let user_text := message.text.getD ""
  if pyStrip user_text = "" then ([.error empty_message_error], [])
  else
    match get_embeddings VECTOR_DIMENSION o.bedrockEmbed [user_text] with
    | .error _ =>
        ([.typing true, .error "Failed to process message"], [.embedCall user_text])
    | .ok query_embeddings =>
        match query_embeddings.head? with
        | none =>
            ([.typing true, .error "Failed to process message"], [.embedCall user_text])
        | some query_vector =>
            match o.queryVectors query_vector message.organisation_id
                message.project_id 5 with
            | .error _ =>
                ([.typing true, .error "Failed to process message"],
                 [.embedCall user_text,
                  .queryCall message.organisation_id message.project_id 5])
            | .ok search_results =>
                let relevant_chunks := extract_chunks search_results
                if relevant_chunks.isEmpty then
                  ([.typing true,
                    .bot_response fallback_no_chunks_response message.isVoice o.now],
                   [.embedCall user_text,
                    .queryCall message.organisation_id message.project_id 5])
                else
                  let events := [.embedCall user_text,
                                 .queryCall message.organisation_id message.project_id 5,
                                 .gateCall user_text]
                  match (process_query_with_context o.llm user_text
                      relevant_chunks).result with
                  | .error _ => ([.typing true, .error "Failed to process message"], events)
                  | .ok ai_response =>
                      ([.typing true, .bot_response ai_response message.isVoice o.now],
                       events)

/-! ## Connection manager (`backend/app/main.py:30-57`) -/

/-- A connection handle. -/
abbrev Conn := Nat

/-- The `ConnectionManager`'s only state: the `active_connections` list. -/
structure ConnectionManager where
  active_connections : List Conn
deriving DecidableEq, Repr

/-- `ConnectionManager.connect`: accept and append. -/
def ConnectionManager.connect (m : ConnectionManager) (websocket : Conn) :
    ConnectionManager :=
  { active_connections := m.active_connections ++ [websocket] }

/-- `ConnectionManager.disconnect`: remove the connection if present. -/
def ConnectionManager.disconnect (m : ConnectionManager) (websocket : Conn) :
    ConnectionManager :=
  if websocket ∈ m.active_connections then
    { active_connections := m.active_connections.erase websocket }
  else m

/-- `ConnectionManager.send_personal_message`: one `send_text`, its
exception caught and only logged.  `sendOk` models which sockets accept
the send.  Returns the manager state afterwards and the deliveries made —
the state is returned to make explicit that the method never touches
`active_connections`. -/
def ConnectionManager.send_personal_message (sendOk : Conn → Bool)
    (m : ConnectionManager) (message : String) (websocket : Conn) :
    ConnectionManager × List (Conn × String) :=
  if sendOk websocket then (m, [(websocket, message)]) else (m, [])

/-- `ConnectionManager.broadcast`: a `send_text` to every active
connection, each exception caught and only logged, the loop carrying on. -/
def ConnectionManager.broadcast (sendOk : Conn → Bool) (m : ConnectionManager)
    (message : String) : ConnectionManager × List (Conn × String) :=
  (m, (m.active_connections.filter sendOk).map (fun c => (c, message)))

/-! ## Concrete oracle instances, used to evaluate the model on inputs -/

/-- An LLM whose every completion succeeds with a fixed reply. -/
def demoLLM : LLMOracles :=
  { chatCompletion := fun _ _ _ _ => .ok "ok-answer", hour := 10, pick := 0 }

/-- A backend whose embedding succeeds, whose store returns an empty
vector list, and whose speech bridge is unavailable. -/
def demoOracles : BackendOracles :=
  { llm := demoLLM
    bedrockEmbed := fun _ => .ok (List.replicate VECTOR_DIMENSION 0)
    queryVectors := fun _ _ _ _ => .ok { vectors := some [] }
    transcribe := fun _ => .error "no transcriber"
    synthesize := fun _ => .error "no synthesizer"
    now := 0 }

/-- A 57-character chunk (the spec's §8 example document). -/
def chunk42 : String := "Returns accepted within 30 days of purchase with receipt."

/-! ## The claims -/

/-- The dict `send_message` builds has no `"answer"` key, so pydantic
validation of `ChatResponse(**response)` always fails. -/
theorem validate_send_message_dict (ai : String) (iv : Bool) (ts : ℚ) :
    ChatResponse.validate (send_message_response_dict ai iv ts) =
      .error "validation error: field required: answer" := rfl

/-- C1: the claim says a successful pipeline run of `POST /api/v1/message`
is delivered as a success body `{answer, ...}`.  The code instead always
answers HTTP 500: the dict built at `chat.py:67-71` keys the answer
`"response"`, but the `ChatResponse` model requires the field `answer`, so
`ChatResponse(**response)` raises a `ValidationError` which the blanket
`except` turns into `HTTPException(500, "Failed to process message")` —
for every oracle behaviour and every request, the endpoint returns that
500, and validating the dict the code builds always fails. -/
theorem C1_message_endpoint_always_500 :
    ∀ (o : BackendOracles) (m : ChatMessage),
      (send_message o m).1 = .httpError 500 "Failed to process message" ∧
      ∀ (ai : String) (iv : Bool) (ts : ℚ),
        ChatResponse.validate (send_message_response_dict ai iv ts) =
          .error "validation error: field required: answer" := by
  intro o m
  refine ⟨?_, fun ai iv ts => rfl⟩
  unfold send_message
  repeat' (first | split | dsimp only)
  rename_i body h
  rw [validate_send_message_dict] at h
  exact Except.noConfusion h

/-- C4: the query request `query_vectors` sends carries the server-side
filter `$and [organisation_id $eq org, project_id $eq proj]` and
`topK = limit`; under the store's filter semantics, however the store's
contents are ranked, every returned vector's metadata holds exactly the
queried tenant pair and at most `limit` vectors come back — a vector of
another tenant is never returned, no matter its similarity rank. -/
theorem C4_tenant_isolation :
    ∀ (ranked : List StoredVector) (query_vector : List ℚ)
      (organisation_id project_id : Int) (limit : Nat),
      (storeQuery ranked (query_vectors_request query_vector organisation_id project_id
          limit)).length ≤ limit ∧
      ∀ v ∈ storeQuery ranked
          (query_vectors_request query_vector organisation_id project_id limit),
        v.metadata.lookup "organisation_id" = some (.int organisation_id) ∧
        v.metadata.lookup "project_id" = some (.int project_id) ∧
        v ∈ ranked := by
  intro ranked qv org proj limit
  constructor
  · exact List.length_take_le _ _
  · intro v hv
    have hf : v ∈ ranked.filter (fun v =>
        matchesFilter (query_vectors_request qv org proj limit).filter v.metadata) :=
      List.mem_of_mem_take hv
    have hmem : v ∈ ranked := List.mem_of_mem_filter hf
    have hmatch := List.of_mem_filter hf
    simp only [matchesFilter, query_vectors_request, List.all_eq_true, List.mem_cons,
      List.not_mem_nil, or_false, beq_iff_eq, forall_eq_or_imp, forall_eq] at hmatch
    exact ⟨hmatch.1, hmatch.2, hmem⟩

/-- C7 counterexample: the claim says a failed send removes the connection
from the active set.  With two connections `0` and `1` where the socket of
`0` rejects sends, `send_personal_message` to `0` fails, yet the manager's
active set afterwards is unchanged and still contains `0` — the source's
`send_personal_message` only logs the exception and never mutates
`active_connections`. -/
theorem C7_send_failure_counterexample :
    ((fun c => c != 0) : Conn → Bool) 0 = false ∧
    (ConnectionManager.send_personal_message (fun c => c != 0)
        ⟨[0, 1]⟩ "hi" 0).1.active_connections = [0, 1] ∧
    0 ∈ (ConnectionManager.send_personal_message (fun c => c != 0)
        ⟨[0, 1]⟩ "hi" 0).1.active_connections := by
  decide

/-- C7 amended: a send failure is caught and logged; the connection is
*not* removed from the active set by the send path — `send_personal_message`
and `broadcast` leave the manager's state exactly as it was (removal
happens only through `disconnect`, driven by the receive side) — and the
failure never affects any other session: every connection stays in the
set, `broadcast` still delivers to every connection whose socket accepts
the send, and a successful single-target send delivers exactly its
message. -/
theorem C7_send_failure_amended :
    ∀ (sendOk : Conn → Bool) (m : ConnectionManager) (message : String) (ws : Conn),
      (ConnectionManager.send_personal_message sendOk m message ws).1 = m ∧
      (ConnectionManager.broadcast sendOk m message).1 = m ∧
      (∀ c ∈ m.active_connections, sendOk c = true →
        (c, message) ∈ (ConnectionManager.broadcast sendOk m message).2) ∧
      (sendOk ws = true →
        (ConnectionManager.send_personal_message sendOk m message ws).2 = [(ws, message)]) ∧
      (ConnectionManager.disconnect m ws).active_connections =
        m.active_connections.erase ws := by
  intro sendOk m message ws
  refine ⟨?_, rfl, ?_, ?_, ?_⟩
  · unfold ConnectionManager.send_personal_message
    split <;> rfl
  · intro c hc hok
    simp only [ConnectionManager.broadcast, List.mem_map]
    exact ⟨c, List.mem_filter.mpr ⟨hc, hok⟩, rfl⟩
  · intro hok
    simp [ConnectionManager.send_personal_message, hok]
  · unfold ConnectionManager.disconnect
    split
    · rfl
    · next h => rw [List.erase_of_not_mem h]

/-- C3: the gate classifies a query as a greeting exactly when its
lowercased, stripped form equals one of the fixed pure-greeting phrases,
bare or with a single trailing `"!"`; `"hello"` is a greeting, while
`"hello there"` is not and falls through to retrieval — concretely, the
gate on `"hello"` answers without any completion call, and on
`"hello there"` with a meaningful retrieved chunk it reaches the LLM. -/
theorem C3_greeting_classification :
    ∀ q : String,
      (is_pure_greeting q = true ↔
        ∃ g ∈ pure_greetings,
          pyStrip (pyLower q) = g ∨ pyStrip (pyLower q) = g ++ "!") ∧
      is_pure_greeting "hello" = true ∧
      is_pure_greeting "hello there" = false ∧
      (process_query_with_context demoLLM "hello" []).llmCalled = false ∧
      (process_query_with_context demoLLM "hello there" [chunk42]).llmCalled = true := by
  intro q
  refine ⟨?_, by decide, by decide, by decide, by decide⟩
  simp [is_pure_greeting, List.any_eq_true, Bool.or_eq_true, beq_iff_eq]

/-- Unfolding the answer gate on the `GENERATE` path: when the query is
no pure greeting, some chunk survives the length filter and the
completion call returns `ai`, what remains is exactly the language
normalisation step. -/
theorem gate_generate_case (o : LLMOracles) (q : String) (chunks : List String) (ai : String)
    (hg : is_pure_greeting q = false)
    (hm : chunks.filter (fun chunk => (pyStrip chunk).length > 20) ≠ [])
    (hgen : generate_response o q
        (pyJoin "\n\n" (chunks.filter (fun chunk => (pyStrip chunk).length > 20))) = .ok ai) :
    process_query_with_context o q chunks =
      if pyLower (detect_language o q) ≠ "english" ∧ pyLower (detect_language o q) ≠ "en" then
        match translate_content o ai "English" (some (detect_language o q)) with
        | .ok translation_result =>
            { result := .ok translation_result.translated_content, llmCalled := true }
        | .error _ => { result := .ok ai, llmCalled := true }
      else { result := .ok ai, llmCalled := true } := by
  have hne : chunks ≠ [] := fun h => hm (by simp [h])
  unfold process_query_with_context
  rw [if_neg (by simp [hg]), if_neg (by simp [List.isEmpty_iff, hne])]
  dsimp only
  rw [if_neg (by simp [List.isEmpty_iff, hm]), hgen]

/-- C2 counterexample: on the realtime path, a non-greeting query whose
retrieval returns zero chunks is answered with the fixed fallback
sentence of `main.py:251`, which is not the `"No context found for your
query."` literal the claim requires — the `user_message` handler bypasses
the answer gate when the chunk list is empty. -/
theorem C2_no_context_counterexample :
    (handle_user_message demoOracles { text := some "What is the return policy?" }).1 =
      [.typing true, .bot_response fallback_no_chunks_response false 0] ∧
    fallback_no_chunks_response ≠ no_context_response := by
  exact ⟨rfl, by decide⟩

/-- C2 amended: wherever the answer gate itself runs — which includes both
HTTP endpoints unconditionally, and the realtime path whenever at least
one chunk was extracted — a non-greeting query with no chunks, or none
longer than 20 characters once stripped, gets exactly the literal
`"No context found for your query."` and the LLM completion is never
invoked.  On the realtime path with *zero* extracted chunks, however, the
handler answers with its own fixed fallback sentence instead of calling
the gate (still without any LLM call). -/
theorem C2_no_context_amended :
    (∀ (o : LLMOracles) (q : String) (chunks : List String),
      is_pure_greeting q = false →
      (chunks = [] ∨ ∀ c ∈ chunks, (pyStrip c).length ≤ 20) →
      process_query_with_context o q chunks =
        { result := .ok no_context_response, llmCalled := false }) ∧
    (∀ (o : BackendOracles) (msg : WsIncoming) (qv : List ℚ) (resp : VectorQueryResponse),
      pyStrip (msg.text.getD "") ≠ "" →
      get_embeddings VECTOR_DIMENSION o.bedrockEmbed [msg.text.getD ""] = .ok [qv] →
      o.queryVectors qv msg.organisation_id msg.project_id 5 = .ok resp →
      extract_chunks resp = [] →
      handle_user_message o msg =
        ([.typing true, .bot_response fallback_no_chunks_response msg.isVoice o.now],
         [.embedCall (msg.text.getD ""),
          .queryCall msg.organisation_id msg.project_id 5])) := by
  constructor
  · intro o q chunks hg hcond
    unfold process_query_with_context
    rw [if_neg (by simp [hg])]
    by_cases hnil : chunks = []
    · subst hnil; simp
    · have hfilter : chunks.filter (fun chunk => (pyStrip chunk).length > 20) = [] := by
        rcases hcond with h | h
        · exact absurd h hnil
        · refine List.filter_eq_nil_iff.mpr (fun c hc => ?_)
          simpa using Nat.not_lt.mpr (h c hc)
      rw [if_neg (by simp [List.isEmpty_iff, hnil])]
      dsimp only
      rw [hfilter]
      simp
  · intro o msg qv resp hne hemb hq hchunks
    unfold handle_user_message
    rw [if_neg hne, hemb]
    dsimp only [List.head?]
    rw [hq]
    dsimp only
    rw [hchunks]
    simp

/-- C8: after a generated answer, when the detected query language is
"english" or "en" (case-insensitively) the answer is returned unchanged;
otherwise the answer is translated to English and the translated text is
the final answer, a failed translation falling back to the untranslated
answer without failing the request. -/
theorem C8_language_normalization :
    ∀ (o : LLMOracles) (q : String) (chunks : List String) (ai : String),
      is_pure_greeting q = false →
      chunks.filter (fun chunk => (pyStrip chunk).length > 20) ≠ [] →
      generate_response o q
          (pyJoin "\n\n" (chunks.filter (fun chunk => (pyStrip chunk).length > 20))) = .ok ai →
      (((pyLower (detect_language o q) = "english" ∨ pyLower (detect_language o q) = "en") →
        process_query_with_context o q chunks = { result := .ok ai, llmCalled := true }) ∧
       (pyLower (detect_language o q) ≠ "english" → pyLower (detect_language o q) ≠ "en" →
        (∀ tr, translate_content o ai "English" (some (detect_language o q)) = .ok tr →
          process_query_with_context o q chunks =
            { result := .ok tr.translated_content, llmCalled := true }) ∧
        (∀ e, translate_content o ai "English" (some (detect_language o q)) = .error e →
          process_query_with_context o q chunks =
            { result := .ok ai, llmCalled := true }))) := by
  intro o q chunks ai hg hm hgen
  have hmain := gate_generate_case o q chunks ai hg hm hgen
  constructor
  · intro hen
    rw [hmain, if_neg]
    rcases hen with h | h <;> simp [h]
  · intro h1 h2
    refine ⟨fun tr htr => ?_, fun e htr => ?_⟩ <;> rw [hmain, if_pos ⟨h1, h2⟩, htr]

/-- A mocked LLM that detects every text as English and otherwise answers
with a fixed completion. -/
def englishLLM : LLMOracles :=
  { chatCompletion := fun system_prompt _ _ _ =>
      if system_prompt = detection_system_prompt then .ok "English"
      else .ok "generated answer"
    hour := 10
    pick := 0 }

/-- C8 witness: the spec's §8 scenario — an English query with one
meaningful retrieved chunk is answered by the completion unchanged. -/
theorem C8_language_normalization_witness :
    process_query_with_context englishLLM "What is your return policy?" [chunk42] =
      { result := .ok "generated answer", llmCalled := true } :=
  (C8_language_normalization englishLLM "What is your return policy?" [chunk42]
      "generated answer" (by decide) (by decide) (by decide)).1 (Or.inl (by decide))

/-- C10: a failed language-detection call degrades to the sentinel
`"Unknown"` instead of raising; `"unknown"` is neither "english" nor
"en", so the pipeline then calls translation on the generated answer of
an (actually English) query, and a successful translation replaces the
answer with the translator's output. -/
theorem C10_detection_failure_translation :
    ∀ (o : LLMOracles) (q : String) (e : String),
      o.chatCompletion detection_system_prompt (pyTake q 500) 50 (1/10) = .error e →
      detect_language o q = "Unknown" ∧
      (∀ (chunks : List String) (ai : String) (tr : TranslationResult),
        is_pure_greeting q = false →
        chunks.filter (fun chunk => (pyStrip chunk).length > 20) ≠ [] →
        generate_response o q
            (pyJoin "\n\n" (chunks.filter (fun chunk => (pyStrip chunk).length > 20))) = .ok ai →
        translate_content o ai "English" (some "Unknown") = .ok tr →
        process_query_with_context o q chunks =
          { result := .ok tr.translated_content, llmCalled := true }) := by
  intro o q e hdet
  have hdl : detect_language o q = "Unknown" := by
    unfold detect_language
    rw [hdet]
  refine ⟨hdl, ?_⟩
  intro chunks ai tr hg hm hgen htr
  rw [gate_generate_case o q chunks ai hg hm hgen, hdl, if_pos (by decide), htr]

/-- A mocked LLM whose language-detection call fails and whose other
completions succeed. -/
def failDetectLLM : LLMOracles :=
  { chatCompletion := fun system_prompt _ _ _ =>
      if system_prompt = detection_system_prompt then .error "api timeout"
      else .ok "some completion"
    hour := 10
    pick := 0 }

/-- C10 witness: with a failing detection upstream, `_detect_language`
returns the sentinel instead of raising. -/
theorem C10_detection_failure_witness :
    detect_language failDetectLLM "What is your return policy?" = "Unknown" :=
  (C10_detection_failure_translation failDetectLLM "What is your return policy?"
      "api timeout" (by decide)).1

/-- Every vector `normalize_embedding` produces has length exactly the
configured dimension. -/
theorem normalize_embedding_length (dim : Nat) (raw : List ℚ) :
    (normalize_embedding dim raw).length = dim := by
  unfold normalize_embedding
  split_ifs with h1 h2
  · simp only [List.length_take]
    omega
  · simp only [List.length_append, List.length_replicate]
    omega
  · omega

/-- A `Forall₂` relation covers every member of its right list. -/
theorem forall₂_exists_left {α β : Type} {R : α → β → Prop} :
    ∀ {l₁ : List α} {l₂ : List β}, List.Forall₂ R l₁ l₂ → ∀ b ∈ l₂, ∃ a, R a b := by
  intro l₁ l₂ h
  induction h with
  | nil => simp
  | cons hR _ ih =>
      intro b hb
      rcases List.mem_cons.mp hb with rfl | hb2
      · exact ⟨_, hR⟩
      · exact ih b hb2

/-- C5: when `get_embeddings` succeeds it returns one vector per input
text, in input order, each the dimension-normalisation of the upstream
vector for that text; every returned vector has length exactly the
configured dimension, an upstream vector longer than the dimension keeps
exactly its first `dim` components, and a shorter one is zero-padded at
the end. -/
theorem C5_embedding_dimension :
    ∀ (dim : Nat) (embed : String → Except String (List ℚ))
      (texts : List String) (out : List (List ℚ)),
      get_embeddings dim embed texts = .ok out →
      out.length = texts.length ∧
      (∀ v ∈ out, v.length = dim) ∧
      List.Forall₂ (fun t v => ∃ raw, embed t = .ok raw ∧ v = normalize_embedding dim raw)
        texts out ∧
      (∀ raw : List ℚ,
        (dim < raw.length → normalize_embedding dim raw = raw.take dim) ∧
        (raw.length < dim →
          normalize_embedding dim raw = raw ++ List.replicate (dim - raw.length) 0)) := by
  intro dim embed texts out hok
  have hforall : List.Forall₂
      (fun t v => ∃ raw, embed t = .ok raw ∧ v = normalize_embedding dim raw) texts out := by
    induction texts generalizing out with
    | nil =>
        simp only [get_embeddings] at hok
        cases hok
        exact .nil
    | cons t ts ih =>
        simp only [get_embeddings] at hok
        rcases h1 : embed t with e | raw <;> rw [h1] at hok
        · cases hok
        · rcases h2 : get_embeddings dim embed ts with e | tail <;> rw [h2] at hok
          · cases hok
          · cases hok
            exact .cons ⟨raw, h1, rfl⟩ (ih tail h2)
  refine ⟨hforall.length_eq.symm, ?_, hforall, ?_⟩
  · intro v hv
    obtain ⟨t, raw, -, rfl⟩ := forall₂_exists_left hforall v hv
    exact normalize_embedding_length dim raw
  · intro raw
    constructor
    · intro h
      unfold normalize_embedding
      rw [if_pos h]
    · intro h
      unfold normalize_embedding
      rw [if_neg (by omega), if_pos h]

/-- A mocked upstream embedding model whose native dimension is 1. -/
def constEmbed : String → Except String (List ℚ) := fun _ => .ok [1]

/-- C5 witness: a 1-dimensional upstream vector normalised to a
3-dimensional store — one output per input. -/
theorem C5_embedding_dimension_witness :
    ([[(1 : ℚ), 0, 0]] : List (List ℚ)).length = (["a"] : List String).length :=
  (C5_embedding_dimension 3 constEmbed ["a"] [[1, 0, 0]] (by decide)).1

/-- C6 counterexample: the claim says an empty or whitespace-only query
is rejected on every entry path before any pipeline step.  On
`POST /api/v1/message` there is no such validation: a whitespace-only
message is embedded, the store is queried and the gate runs. -/
theorem C6_empty_query_counterexample :
    pyStrip "   " = "" ∧
    (send_message demoOracles { message := "   " }).2 =
      [.embedCall "   ", .queryCall 1 1 5, .gateCall "   "] := ⟨rfl, rfl⟩

/-- C6 amended: `POST /api/v1/chat` answers 400 to an empty or
whitespace-only text with no pipeline step run, and the realtime handler
answers only the `"Empty message received"` error frame likewise; but
`POST /api/v1/message` performs no emptiness validation at all — its very
first pipeline step, the embedding call on the raw message, runs for
every message, whitespace-only ones included. -/
theorem C6_empty_query_amended :
    (∀ (o : BackendOracles) (t : String) (org proj : Int),
      pyStrip t = "" →
      (chat o (some t) none org proj).2 = [] ∧
      ∃ d, (chat o (some t) none org proj).1 = .httpError 400 d) ∧
    (∀ (o : BackendOracles) (msg : WsIncoming),
      pyStrip (msg.text.getD "") = "" →
      handle_user_message o msg = ([.error empty_message_error], [])) ∧
    (∀ (o : BackendOracles) (m : ChatMessage),
      (send_message o m).2.head? = some (.embedCall m.message)) := by
  refine ⟨?_, ?_, ?_⟩
  · intro o t org proj ht
    unfold chat
    by_cases h0 : t = ""
    · subst h0
      rw [if_pos ⟨Or.inr rfl, rfl⟩]
      exact ⟨rfl, _, rfl⟩
    · rw [if_neg (by simp [h0]), if_neg (by simp)]
      dsimp only [Option.getD]
      rw [if_pos ht]
      exact ⟨rfl, _, rfl⟩
  · intro o msg h
    unfold handle_user_message
    rw [if_pos h]
  · intro o m
    unfold send_message
    repeat' (first | split | dsimp only)
    all_goals rfl

/-! ## Chunking lemmas (claim C9) -/

/-- `pyJoin` over a cons with a nonempty tail. -/
theorem pyJoin_cons_ne (sep w : String) (ws : List String) (h : ws ≠ []) :
    pyJoin sep (w :: ws) = w ++ sep ++ pyJoin sep ws := by
  cases ws with
  | nil => exact absurd rfl h
  | cons x xs => rfl

/-- `pyJoin` over a concatenation of nonempty lists. -/
theorem pyJoin_append (sep : String) :
    ∀ (a b : List String), a ≠ [] → b ≠ [] →
      pyJoin sep (a ++ b) = pyJoin sep a ++ sep ++ pyJoin sep b := by
  intro a
  induction a with
  | nil => intro b h _; exact absurd rfl h
  | cons w a ih =>
      intro b _ hb
      cases a with
      | nil =>
          rw [List.singleton_append, pyJoin_cons_ne sep w b hb]
          rfl
      | cons w2 a2 =>
          have hne : (w2 :: a2 : List String) ≠ [] := by simp
          have hne2 : ((w2 :: a2) ++ b : List String) ≠ [] := by simp
          rw [List.cons_append, pyJoin_cons_ne sep w _ hne2, ih b hne hb,
            pyJoin_cons_ne sep w _ hne]
          simp [String.append_assoc]

/-- The space a word list occupies in the loop's size counter: total word
length plus one separator slot per word. -/
def wlistSize (l : List String) : Nat := (l.map String.length).sum + l.length

theorem wlistSize_append_single (l : List String) (w : String) :
    wlistSize (l ++ [w]) = wlistSize l + w.length + 1 := by
  simp only [wlistSize, List.map_append, List.sum_append, List.length_append,
    List.map_cons, List.map_nil, List.sum_cons, List.sum_nil, List.length_cons,
    List.length_nil]
  omega

theorem wlistSize_cons (w : String) (l : List String) :
    wlistSize (w :: l) = w.length + 1 + wlistSize l := by
  simp only [wlistSize, List.map_cons, List.sum_cons, List.length_cons]
  omega

/-- The length of a space-joined nonempty word list is its `wlistSize`
less the one missing separator. -/
theorem joinSp_length : ∀ (l : List String), l ≠ [] →
    (pyJoin " " l).length + 1 = wlistSize l := by
  intro l
  induction l with
  | nil => intro h; exact absurd rfl h
  | cons w ws ih =>
      intro _
      cases ws with
      | nil =>
          simp [pyJoin, wlistSize]
      | cons x xs =>
          rw [pyJoin_cons_ne " " w (x :: xs) (by simp), wlistSize_cons,
            String.length_append, String.length_append]
          have hsp : (" " : String).length = 1 := rfl
          have hrec := ih (by simp)
          omega

/-- One loop step moves the words around but loses none: flushed chunks
followed by the running chunk always hold exactly the words consumed. -/
theorem chunkStep_words (n : Nat) (s : ChunkState) (w : String) :
    (chunkStep n s w).chunks.flatten ++ (chunkStep n s w).cur =
      s.chunks.flatten ++ s.cur ++ [w] := by
  unfold chunkStep
  split <;> simp

theorem foldl_chunkStep_words (n : Nat) :
    ∀ (ws : List String) (s : ChunkState),
      (ws.foldl (chunkStep n) s).chunks.flatten ++ (ws.foldl (chunkStep n) s).cur =
        s.chunks.flatten ++ s.cur ++ ws := by
  intro ws
  induction ws with
  | nil => intro s; simp
  | cons w ws ih =>
      intro s
      rw [List.foldl_cons, ih, chunkStep_words]
      simp

/-- The words of the produced chunks, in order, are exactly the input
words: nothing is reordered, dropped, split or truncated. -/
theorem chunkWords_join (ws : List String) (n : Nat) :
    (chunkWords ws n).flatten = ws := by
  unfold chunkWords
  have h := foldl_chunkStep_words n ws ⟨[], [], 0⟩
  simp only [List.flatten_nil, List.nil_append] at h
  dsimp only
  split
  · next hcur => simpa [List.flatten_append] using h
  · next hcur =>
      have hc : (List.foldl (chunkStep n) ⟨[], [], 0⟩ ws).cur = [] := by
        simpa using hcur
      rw [hc, List.append_nil] at h
      exact h

/-- The spec's chunk-size bound: a chunk may exceed the configured size
by at most the length of its one trailing word. -/
def chunkBound (n : Nat) (c : List String) : Prop :=
  ∃ w, c.getLast? = some w ∧ (pyJoin " " c).length ≤ n + w.length

/-- The loop invariant of `chunk_text`'s fold: flushed chunks are
nonempty; while no chunk was flushed yet, the size counter is the running
chunk's `wlistSize` (the first word was counted with a separator); after
a flush the counter is one less (a flush restarts the counter at the bare
word length); a running non-first chunk is a single word or fits in `n`;
and every flushed non-first chunk satisfies the chunk bound. -/
structure ChunkInv (n : Nat) (s : ChunkState) : Prop where
  nonempty : ∀ c ∈ s.chunks, c ≠ []
  first : s.chunks = [] → (s.cur = [] ∧ s.size = 0) ∨ (s.cur ≠ [] ∧ s.size = wlistSize s.cur)
  rest : s.chunks ≠ [] →
    s.cur ≠ [] ∧ s.size + 1 = wlistSize s.cur ∧ ((∃ w, s.cur = [w]) ∨ s.size ≤ n)
  bound : ∀ c ∈ s.chunks.drop 1, chunkBound n c

/-- A running non-first chunk satisfies the chunk bound the moment it is
flushed. -/
theorem cur_chunkBound (n : Nat) (s : ChunkState) (h : ChunkInv n s)
    (hch : s.chunks ≠ []) : chunkBound n s.cur := by
  obtain ⟨hcur, hsize, hdisj⟩ := h.rest hch
  rcases hdisj with ⟨w, hw⟩ | hle
  · refine ⟨w, by simp [hw], ?_⟩
    simp only [hw, pyJoin]
    omega
  · obtain ⟨w, hw⟩ := Option.isSome_iff_exists.mp (List.getLast?_isSome.mpr hcur)
    refine ⟨w, hw, ?_⟩
    have hj := joinSp_length s.cur hcur
    omega

/-- The invariant is preserved by one loop step. -/
theorem chunkStep_inv (n : Nat) (s : ChunkState) (w : String) (h : ChunkInv n s) :
    ChunkInv n (chunkStep n s w) := by
  unfold chunkStep
  split
  · next hcond =>
      obtain ⟨hgt, hcur⟩ := hcond
      refine ⟨?_, ?_, ?_, ?_⟩
      · intro c hc
        rcases List.mem_append.mp hc with hc | hc
        · exact h.nonempty c hc
        · rcases List.mem_singleton.mp hc with rfl
          exact hcur
      · intro habs
        simp at habs
      · intro _
        refine ⟨by simp, by simp [wlistSize], Or.inl ⟨w, rfl⟩⟩
      · intro c hc
        by_cases hch : s.chunks = []
        · rw [hch] at hc
          simp at hc
        · rw [List.drop_append_of_le_length
            (Nat.one_le_iff_ne_zero.mpr (by simpa using hch))] at hc
          rcases List.mem_append.mp hc with hc | hc
          · exact h.bound c hc
          · rcases List.mem_singleton.mp hc with rfl
            exact cur_chunkBound n s h hch
  · next hcond =>
      refine ⟨h.nonempty, ?_, ?_, h.bound⟩
      · intro hch
        rcases h.first hch with ⟨hc0, hs0⟩ | ⟨hc, hsz⟩
        · right
          refine ⟨by simp, ?_⟩
          simp [hc0, hs0, wlistSize]
        · right
          refine ⟨by simp, ?_⟩
          dsimp only
          rw [wlistSize_append_single, hsz]
      · intro hch
        obtain ⟨hcur, hsz, hdisj⟩ := h.rest hch
        have hnotgt : ¬(s.size + w.length + 1 > n) := fun hgt => hcond ⟨hgt, hcur⟩
        refine ⟨by simp, ?_, Or.inr (by dsimp only; omega)⟩
        dsimp only
        rw [wlistSize_append_single]
        omega

theorem chunkInv_init (n : Nat) : ChunkInv n ⟨[], [], 0⟩ := by
  refine ⟨by simp, fun _ => Or.inl ⟨rfl, rfl⟩, fun habs => absurd rfl habs, by simp⟩

theorem foldl_chunkStep_inv (n : Nat) :
    ∀ (ws : List String) (s : ChunkState), ChunkInv n s →
      ChunkInv n (ws.foldl (chunkStep n) s) := by
  intro ws
  induction ws with
  | nil => intro s h; exact h
  | cons w ws ih => intro s h; exact ih _ (chunkStep_inv n s w h)

/-- Every produced chunk is a nonempty word list, and every one but
possibly the first satisfies the chunk bound. -/
theorem chunkWords_nonempty_and_bound (ws : List String) (n : Nat) :
    (∀ c ∈ chunkWords ws n, c ≠ []) ∧
    (∀ c ∈ (chunkWords ws n).drop 1, chunkBound n c) := by
  unfold chunkWords
  have hinv := foldl_chunkStep_inv n ws ⟨[], [], 0⟩ (chunkInv_init n)
  dsimp only
  split
  · next hcur =>
      constructor
      · intro c hc
        rcases List.mem_append.mp hc with hc | hc
        · exact hinv.nonempty c hc
        · rcases List.mem_singleton.mp hc with rfl
          exact hcur
      · intro c hc
        by_cases hch : (List.foldl (chunkStep n) ⟨[], [], 0⟩ ws).chunks = []
        · rw [hch] at hc
          simp at hc
        · rw [List.drop_append_of_le_length
            (Nat.one_le_iff_ne_zero.mpr (by simpa using hch))] at hc
          rcases List.mem_append.mp hc with hc | hc
          · exact hinv.bound c hc
          · rcases List.mem_singleton.mp hc with rfl
            exact cur_chunkBound n _ hinv hch
  · next hcur =>
      exact ⟨hinv.nonempty, hinv.bound⟩

/-- Space-joining already-joined nonempty chunks is the same string as
space-joining all their words. -/
theorem joinSp_map :
    ∀ (ll : List (List String)), (∀ c ∈ ll, c ≠ []) →
      pyJoin " " (ll.map (pyJoin " ")) = pyJoin " " ll.flatten := by
  intro ll
  induction ll with
  | nil => intro _; rfl
  | cons c ll ih =>
      intro h
      cases ll with
      | nil => simp [pyJoin]
      | cons c2 ll2 =>
          have hc : c ≠ [] := h c (by simp)
          have hrest : ∀ x ∈ (c2 :: ll2), x ≠ [] := fun x hx => h x (by simp [hx])
          have hjoin_ne : (c2 :: ll2).flatten ≠ [] := by
            simp only [List.flatten_cons]
            intro habs
            exact hrest c2 (by simp) (List.append_eq_nil.mp habs).1
          rw [List.map_cons, pyJoin_cons_ne " " _ _ (by simp), ih hrest,
            show (c :: c2 :: ll2).flatten = c ++ (c2 :: ll2).flatten from rfl,
            pyJoin_append " " c (c2 :: ll2).flatten hc hjoin_ne]

/-- C9: re-joining the produced chunks with a single space reconstructs
the whitespace-normalised input (its words joined by single spaces); at
the word level the chunks concatenate to exactly the input's words, so no
word is split, dropped or truncated; the empty input yields zero chunks;
and no chunk except possibly the first exceeds `max_chunk_size` by more
than the length of its one trailing word. -/
theorem C9_chunking :
    ∀ (text : String) (chunk_size : Nat),
      pyJoin " " (chunk_text text chunk_size) = pyJoin " " (pyWords text) ∧
      (chunkWords (pyWords text) chunk_size).flatten = pyWords text ∧
      chunk_text "" chunk_size = [] ∧
      (∀ c ∈ (chunkWords (pyWords text) chunk_size).drop 1, chunkBound chunk_size c) := by
  intro text n
  obtain ⟨hne, hbound⟩ := chunkWords_nonempty_and_bound (pyWords text) n
  refine ⟨?_, chunkWords_join (pyWords text) n, rfl, hbound⟩
  unfold chunk_text
  rw [joinSp_map _ hne, chunkWords_join]

end ChatBot
